import Mathlib

/-!
Shallow embedding of the poll/vote server actions of the polling
application (source: the server-action module exporting `createPoll`,
`getUserPolls`, `getPollById`, `submitVote`, `deletePoll`, `updatePoll`).

Modelling conventions:
* The relational store is an explicit `DB` value (a `polls` list and a
  `votes` list); each operation takes the store and returns the new store
  together with the caller-visible result.
* `supabase.auth.getUser()` is modelled by an `AuthState` argument:
  the call can fail (`authError`), return no user (`anonymous`), or
  return a user id (`user uid`).  When `getUser` errors the returned
  `user` field is null, which `AuthState.userOf` reflects.
* Storage-layer faults are modelled by explicit oracle arguments
  (`insertFails`, `fetchFails`, ...) standing for the `error` field of the
  corresponding supabase call; the engine's own message is carried where
  the source reads it (`error.message` in `getUserPolls`).
* JavaScript `options.filter(Boolean)` keeps exactly the non-empty
  strings (`""` is the only falsy string), embedded as `filterBlank`.
* `.single()` succeeds exactly when the filtered row set has exactly one
  element, embedded as `singleRow`.
* A supabase `update`/`delete` whose predicate matches zero rows is not
  an error: the source receives `error = null` and the store is unchanged.
-/

namespace Polly

/-- A row of the `polls` table. -/
structure Poll where
  id : String
  ownerId : String
  question : String
  options : List String
  createdAt : Nat
deriving Repr, DecidableEq

/-- A row of the `votes` table. -/
structure Vote where
  id : String
  pollId : String
  voterId : String
  optionIndex : Int
  createdAt : Nat
deriving Repr, DecidableEq

/-- The persistent store: the two entity tables. -/
structure DB where
  polls : List Poll
  votes : List Vote
deriving Repr, DecidableEq

/-- Result of `supabase.auth.getUser()` as the source destructures it. -/
inductive AuthState where
  | authError
  | anonymous
  | user (uid : String)
deriving Repr, DecidableEq

/-- The `user` field of the `getUser` result (null when the call errors). -/
def AuthState.userOf : AuthState → Option String
  | .user uid => some uid
  | _ => none

/-- JS `rawOptions.filter(Boolean)`: drops exactly the empty strings. -/
def filterBlank (rawOptions : List String) : List String :=
  rawOptions.filter (fun s => !s.isEmpty)

/-- JS `String.prototype.trim()`: strip leading and trailing whitespace. -/
def jsTrim (s : String) : String :=
  ⟨((s.data.dropWhile Char.isWhitespace).reverse.dropWhile Char.isWhitespace).reverse⟩

/-- Source condition `!question || question.trim().length === 0 || question.length > 255`. -/
def questionInvalid (question : String) : Bool :=
  question.isEmpty || (jsTrim question).length == 0 || decide (question.length > 255)

/-- Source per-option condition `option.trim().length === 0 || option.length > 100`. -/
def optionInvalid (o : String) : Bool :=
  (jsTrim o).length == 0 || decide (o.length > 100)

/-- The input-validation prefix shared verbatim by `createPoll` and
`updatePoll` (question check, two-option minimum on the filtered list,
per-option check); `some msg` is the returned validation error. -/
def validatePollInput (question : String) (rawOptions : List String) : Option String :=
  if questionInvalid question then
    some "Poll question must be between 1 and 255 characters."
  else if (filterBlank rawOptions).length < 2 then
    some "Please provide at least two options."
  else if (filterBlank rawOptions).any optionInvalid then
    some "Each option must be between 1 and 100 characters."
  else
    none

/-- `.single()`: a single matching row, else an error (`none`). -/
def singleRow {α : Type} : List α → Option α
  | [a] => some a
  | _ => none

/-- Server action `createPoll`.  `newId`/`now` are the system-generated id
and timestamp of the inserted row; `insertFails` is the insert-error oracle. -/
def createPoll (auth : AuthState) (question : String) (rawOptions : List String)
    (newId : String) (now : Nat) (insertFails : Bool) (db : DB) :
    DB × Option String :=
  match validatePollInput question rawOptions with
  | some e => (db, some e)
  | none =>
    match auth with
    | .authError => (db, some "Authentication failed.")
    | .anonymous => (db, some "You must be logged in to create a poll.")
    | .user uid =>
      if insertFails then (db, some "Failed to create poll.")
      else
        ({ db with polls := db.polls ++
            [{ id := newId, ownerId := uid, question := question,
               options := filterBlank rawOptions, createdAt := now }] }, none)

/-- Insertion into a list sorted by `createdAt` descending. -/
def insertByCreatedDesc (p : Poll) : List Poll → List Poll
  | [] => [p]
  | q :: qs =>
    if q.createdAt ≤ p.createdAt then p :: q :: qs
    else q :: insertByCreatedDesc p qs

/-- `order("created_at", ascending: false)`: sort by `createdAt` descending. -/
def sortByCreatedDesc : List Poll → List Poll
  | [] => []
  | p :: ps => insertByCreatedDesc p (sortByCreatedDesc ps)

/-- Server action `getUserPolls`.  `fetchError` is the select-error oracle
carrying the storage engine's own message, which the source propagates as
`error.message`. -/
def getUserPolls (auth : AuthState) (fetchError : Option String) (db : DB) :
    List Poll × Option String :=
  match auth.userOf with
  | none => ([], some "Not authenticated")
  | some uid =>
    match fetchError with
    | some msg => ([], some msg)
    | none =>
      (sortByCreatedDesc (db.polls.filter (fun p => p.ownerId == uid)), none)

/-- Server action `getPollById`: the read is scoped by
`id == id AND user_id == uid` and uses `.single()`. -/
def getPollById (auth : AuthState) (id : String) (fetchFails : Bool) (db : DB) :
    Option Poll × Option String :=
  match auth with
  | .user uid =>
    match (if fetchFails then none else
        singleRow (db.polls.filter (fun p => p.id == id && p.ownerId == uid))) with
    | some p => (some p, none)
    | none => (none, some "Failed to retrieve poll.")
  | _ => (none, some "You must be logged in to view this poll.")

/-- Outcome of the vote insert: success, a uniqueness-constraint
violation on `(poll_id, user_id)`, or any other storage failure. -/
inductive InsertOutcome where
  | ok
  | uniqueViolation
  | storageFailure
deriving Repr, DecidableEq

/-- Server action `submitVote`.  `pollFetchFails` / `precheckFails` are the
error oracles of the poll fetch and the existing-vote pre-check;
`insertOutcome` is the result of the vote insert. -/
def submitVote (auth : AuthState) (pollId : String) (optionIndex : Int)
    (pollFetchFails : Bool) (precheckFails : Bool) (insertOutcome : InsertOutcome)
    (newId : String) (now : Nat) (db : DB) : DB × Option String :=
  match auth.userOf with
  | none => (db, some "You must be logged in to vote.")
  | some uid =>
    if pollId.isEmpty then (db, some "Invalid poll ID.")
    else
      match (if pollFetchFails then none else
          singleRow (db.polls.filter (fun p => p.id == pollId))) with
      | none => (db, some "Poll not found or an error occurred.")
      | some poll =>
        if optionIndex < 0 || (poll.options.length : Int) ≤ optionIndex then
          (db, some "Invalid option selected.")
        else if precheckFails then
          (db, some "Failed to check for existing vote.")
        else if db.votes.any (fun v => v.pollId == pollId && v.voterId == uid) then
          (db, some "You have already voted on this poll.")
        else
          match insertOutcome with
          | .ok =>
            ({ db with votes := db.votes ++
                [{ id := newId, pollId := pollId, voterId := uid,
                   optionIndex := optionIndex, createdAt := now }] }, none)
          | _ => (db, some "Failed to submit vote.")

/-- Server action `deletePoll`: delete scoped by `id == id AND user_id == uid`;
zero matching rows is not a storage error. -/
def deletePoll (auth : AuthState) (id : String) (deleteFails : Bool) (db : DB) :
    DB × Option String :=
  match auth with
  | .user uid =>
    if deleteFails then (db, some "Failed to delete poll.")
    else
      ({ db with polls :=
          db.polls.filter (fun p => !(p.id == id && p.ownerId == uid)) }, none)
  | _ => (db, some "You must be logged in to delete a poll.")

/-- The row transformation of the `updatePoll` update statement:
`update(question, options)` on rows matching `id == pollId AND user_id == uid`. -/
def applyUpdate (pollId : String) (uid : String) (question : String)
    (options : List String) (p : Poll) : Poll :=
  if p.id == pollId && p.ownerId == uid then
    { p with question := question, options := options }
  else p

/-- Server action `updatePoll`: validation, then auth, then the scoped
update; zero matching rows is not a storage error. -/
def updatePoll (auth : AuthState) (pollId : String) (question : String)
    (rawOptions : List String) (updateFails : Bool) (db : DB) :
    DB × Option String :=
  match validatePollInput question rawOptions with
  | some e => (db, some e)
  | none =>
    match auth with
    | .authError => (db, some "Authentication failed.")
    | .anonymous => (db, some "You must be logged in to update a poll.")
    | .user uid =>
      if updateFails then (db, some "Failed to update poll.")
      else
        ({ db with polls :=
            db.polls.map (applyUpdate pollId uid question (filterBlank rawOptions)) },
          none)

/-- The closed set of generic user-safe messages of the error policy:
every message the five poll/vote operations can return. -/
def genericMessages : List String :=
  ["Poll question must be between 1 and 255 characters.",
   "Please provide at least two options.",
   "Each option must be between 1 and 100 characters.",
   "Authentication failed.",
   "You must be logged in to create a poll.",
   "You must be logged in to update a poll.",
   "You must be logged in to delete a poll.",
   "You must be logged in to view this poll.",
   "You must be logged in to vote.",
   "Failed to create poll.",
   "Failed to update poll.",
   "Failed to delete poll.",
   "Failed to retrieve poll.",
   "Invalid poll ID.",
   "Poll not found or an error occurred.",
   "Invalid option selected.",
   "Failed to check for existing vote.",
   "You have already voted on this poll.",
   "Failed to submit vote."]

/-- `errIn r msgs`: the caller-visible error of `r` (if any) is in `msgs`. -/
def errIn (r : Option String) (msgs : List String) : Bool :=
  match r with
  | none => true
  | some e => msgs.contains e

/-- An empty store. -/
def db0 : DB := { polls := [], votes := [] }

/-- A store with a single poll owned by `alice`. -/
def dbAlice : DB :=
  { polls := [{ id := "p1", ownerId := "alice", question := "Color?",
                options := ["Red", "Blue"], createdAt := 3 }],
    votes := [] }

/-- A store with two polls, owned by `alice` and `carol`. -/
def dbTwo : DB :=
  { polls := [{ id := "p1", ownerId := "alice", question := "Color?",
                options := ["Red", "Blue"], createdAt := 3 },
              { id := "p2", ownerId := "carol", question := "Pet?",
                options := ["Cat", "Dog"], createdAt := 5 }],
    votes := [] }

/-- A 256-character question whose trimmed length is 1: 255 spaces then `a`. -/
def q256 : String := ⟨List.replicate 255 ' ' ++ ['a']⟩

/- ===================== Theorems ===================== -/

/-- Helper: a map whose function fixes every element of the list is the identity. -/
theorem map_eq_self_of {α : Type} (l : List α) (f : α → α) (h : ∀ a ∈ l, f a = a) :
    l.map f = l := by
  induction l with
  | nil => rfl
  | cons a t ih =>
    simp only [List.map_cons, h a (by simp), ih fun b hb => h b (by simp [hb])]

/-- Helper: the question check of the source validation holds exactly when the
trimmed question is empty or the untrimmed question exceeds 255 characters. -/
theorem questionInvalid_iff (q : String) :
    questionInvalid q = true ↔ ((jsTrim q).length = 0 ∨ 255 < q.length) := by
  unfold questionInvalid
  by_cases hq : q = ""
  · subst hq; decide
  · have hie : q.isEmpty = false := by
      rw [Bool.eq_false_iff]
      intro hcontra
      exact hq ((String.isEmpty_iff q).1 hcontra)
    simp [hie]

/-- Helper: every error of the shared validation prefix is a generic message. -/
theorem validatePollInput_mem (q : String) (raw : List String) :
    errIn (validatePollInput q raw) genericMessages = true := by
  unfold validatePollInput
  repeat' split
  all_goals decide

/-- C1 counterexample: principal `bob` calls `deletePoll`/`updatePoll` on poll
`p1`, which exists but is owned by `alice`.  Zero rows are affected and the
poll is unmodified, but both operations return success (`error = null`),
not the generic failure the claim requires. -/
theorem C1_counterexample :
    deletePoll (AuthState.user "bob") "p1" false dbAlice = (dbAlice, none) ∧
    updatePoll (AuthState.user "bob") "p1" "New?" ["A", "B"] false dbAlice
      = (dbAlice, none) := by decide

/-- C1 amended: when no poll row matches both the id and
`ownerId == principal`, `updatePoll` and `deletePoll` affect zero rows and
leave every existing poll with that id unmodified, but they report success
(`error = null`) rather than a failure: the source never inspects the
affected-row count, and a zero-row update/delete is not a storage error. -/
theorem C1_amended (uid id q : String) (raw : List String) (db : DB)
    (hv : validatePollInput q raw = none)
    (hown : ∀ p ∈ db.polls, ¬(p.id = id ∧ p.ownerId = uid)) :
    deletePoll (AuthState.user uid) id false db = (db, none) ∧
    updatePoll (AuthState.user uid) id q raw false db = (db, none) := by
  have hfalse : ∀ p ∈ db.polls, (p.id == id && p.ownerId == uid) = false := by
    intro p hp
    rw [Bool.eq_false_iff]
    intro hcontra
    exact hown p hp (by simpa using hcontra)
  constructor
  · have h1 : db.polls.filter (fun p => !(p.id == id && p.ownerId == uid)) = db.polls := by
      apply List.filter_eq_self.2
      intro p hp
      simp [hfalse p hp]
    show ({ db with polls :=
        db.polls.filter (fun p => !(p.id == id && p.ownerId == uid)) }, none) = (db, none)
    rw [h1]
  · have h2 : db.polls.map (applyUpdate id uid q (filterBlank raw)) = db.polls := by
      apply map_eq_self_of
      intro p hp
      unfold applyUpdate
      rw [hfalse p hp]
      simp
    unfold updatePoll
    rw [hv]
    show ({ db with polls :=
        db.polls.map (applyUpdate id uid q (filterBlank raw)) }, none) = (db, none)
    rw [h2]

/-- C1 witness: `C1_amended` applied to principal `carol` and the store
whose only poll `p1` belongs to `alice`. -/
theorem C1_witness :
    deletePoll (AuthState.user "carol") "p1" false dbAlice = (dbAlice, none) ∧
    updatePoll (AuthState.user "carol") "p1" "New?" ["A", "B"] false dbAlice
      = (dbAlice, none) :=
  C1_amended "carol" "p1" "New?" ["A", "B"] dbAlice (by decide) (by decide)

/-- C4 counterexample: with no resolved principal and an empty question,
`createPoll` and `updatePoll` return the question validation error, not the
Unauthenticated message: the source validates input before resolving the
principal. -/
theorem C4_counterexample :
    (createPoll AuthState.anonymous "" ["Red", "Blue"] "p" 0 false db0).2
      = some "Poll question must be between 1 and 255 characters." ∧
    (createPoll AuthState.anonymous "" ["Red", "Blue"] "p" 0 false db0).2
      ≠ some "You must be logged in to create a poll." ∧
    (updatePoll AuthState.anonymous "p1" "" ["Red", "Blue"] false dbAlice).2
      = some "Poll question must be between 1 and 255 characters." := by decide

/-- C4 amended: `createPoll` and `updatePoll` run validation before
resolving the principal: called with no resolved principal they fail with
the validation error whenever validation fails, and with the
Unauthenticated message only when validation passes. -/
theorem C4_amended (q pid newId : String) (raw : List String) (now : Nat)
    (insertFails updateFails : Bool) (db : DB) :
    (createPoll AuthState.anonymous q raw newId now insertFails db).2
      = some ((validatePollInput q raw).getD "You must be logged in to create a poll.") ∧
    (updatePoll AuthState.anonymous pid q raw updateFails db).2
      = some ((validatePollInput q raw).getD "You must be logged in to update a poll.") := by
  unfold createPoll updatePoll
  cases hval : validatePollInput q raw <;> simp [hval]

/-- C5 counterexample: the submitted options `["Red", " "]` have only one
non-blank entry, yet `createPoll` fails with the per-option message, not
`InsufficientOptions`: the JS `filter(Boolean)` drops only empty strings, so
the whitespace-only entry `" "` counts toward the two-option minimum. -/
theorem C5_counterexample :
    (["Red", " "].filter (fun s => !((jsTrim s).isEmpty))).length = 1 ∧
    createPoll (AuthState.user "u") "Color?" ["Red", " "] "p" 0 false db0
      = (db0, some "Each option must be between 1 and 100 characters.") ∧
    some "Each option must be between 1 and 100 characters."
      ≠ some "Please provide at least two options." := by decide

/-- C5 amended: only empty-string entries are dropped before the two-option
minimum is applied: whenever fewer than 2 entries remain after dropping
empty strings (and the question is valid), `createPoll` and `updatePoll`
fail with the `InsufficientOptions` message and write no row, for every
authentication state.  Whitespace-only entries are not dropped: they count
toward the minimum and trigger the per-option validation error instead. -/
theorem C5_amended (auth : AuthState) (q pid newId : String) (raw : List String)
    (now : Nat) (insertFails updateFails : Bool) (db : DB)
    (hq : questionInvalid q = false)
    (hlen : (filterBlank raw).length < 2) :
    createPoll auth q raw newId now insertFails db
      = (db, some "Please provide at least two options.") ∧
    updatePoll auth pid q raw updateFails db
      = (db, some "Please provide at least two options.") := by
  unfold createPoll updatePoll validatePollInput
  simp [hq, hlen]

/-- C5 witness: `C5_amended` applied to the options `["Red", ""]`, in which
only one entry survives the empty-string filter. -/
theorem C5_witness :
    createPoll (AuthState.user "u") "Color?" ["Red", ""] "p" 0 false db0
      = (db0, some "Please provide at least two options.") ∧
    updatePoll (AuthState.user "u") "p1" "Color?" ["Red", ""] false db0
      = (db0, some "Please provide at least two options.") :=
  C5_amended (AuthState.user "u") "Color?" "p1" "p" ["Red", ""] 0 false false db0
    (by decide) (by decide)

/-- C7 counterexample: a successful `createPoll` returns the constant
success value `error = null`, identical for two different generated poll
identifiers, so the new poll's identifier is not returned to the caller. -/
theorem C7_counterexample :
    (createPoll (AuthState.user "u") "Color?" ["Red", "Blue"] "id1" 7 false db0).2 = none ∧
    (createPoll (AuthState.user "u") "Color?" ["Red", "Blue"] "id2" 7 false db0).2
      = (createPoll (AuthState.user "u") "Color?" ["Red", "Blue"] "id1" 7 false db0).2 := by
  decide

/-- C7 amended: for every resolved principal and valid input, a successful
`createPoll` inserts exactly one Poll row with `ownerId` equal to the
calling principal and leaves the votes table unchanged, but returns only a
success indicator (`error = null`), not the new poll's identifier. -/
theorem C7_amended (uid q newId : String) (raw : List String) (now : Nat) (db : DB)
    (hv : validatePollInput q raw = none) :
    (createPoll (AuthState.user uid) q raw newId now false db).2 = none ∧
    ∃ newPoll : Poll,
      (createPoll (AuthState.user uid) q raw newId now false db).1.polls
          = db.polls ++ [newPoll] ∧
      newPoll.ownerId = uid ∧ newPoll.id = newId ∧
      (createPoll (AuthState.user uid) q raw newId now false db).1.votes = db.votes := by
  unfold createPoll
  rw [hv]
  exact ⟨rfl, _, rfl, rfl, rfl, rfl⟩

/-- C7 witness: `C7_amended` on an empty store with principal `u`. -/
theorem C7_witness :
    (createPoll (AuthState.user "u") "Color?" ["Red", "Blue"] "id9" 7 false db0).2 = none ∧
    ∃ newPoll : Poll,
      (createPoll (AuthState.user "u") "Color?" ["Red", "Blue"] "id9" 7 false db0).1.polls
          = db0.polls ++ [newPoll] ∧
      newPoll.ownerId = "u" ∧ newPoll.id = "id9" ∧
      (createPoll (AuthState.user "u") "Color?" ["Red", "Blue"] "id9" 7 false db0).1.votes
        = db0.votes :=
  C7_amended "u" "Color?" "id9" ["Red", "Blue"] 7 db0 (by decide)

/-- C2 counterexample: on a storage failure, `getUserPolls` returns the
storage engine's own error message (`error.message`) verbatim to the
caller; the message is not one of the generic user-safe messages. -/
theorem C2_counterexample :
    (getUserPolls (AuthState.user "alice") (some "ECONNREFUSED 127.0.0.1:5432") dbAlice).2
      = some "ECONNREFUSED 127.0.0.1:5432" ∧
    genericMessages.contains "ECONNREFUSED 127.0.0.1:5432" = false := by decide

/-- C2 amended: for `createPoll`, `getPollById`, `deletePoll`, `updatePoll`
and `submitVote`, every error value returned to the caller — over every
authentication state, input and storage fault — is one of the fixed generic
user-safe messages; `getUserPolls`, however, returns the storage engine's
own error message on a storage failure. -/
theorem C2_amended (auth : AuthState) (q id pid newId vid uid msg : String)
    (raw : List String) (now t : Nat) (b1 b2 : Bool)
    (outcome : InsertOutcome) (idx : Int) (db : DB) :
    errIn (createPoll auth q raw newId now b1 db).2 genericMessages = true ∧
    errIn (getPollById auth id b1 db).2 genericMessages = true ∧
    errIn (deletePoll auth id b1 db).2 genericMessages = true ∧
    errIn (updatePoll auth pid q raw b1 db).2 genericMessages = true ∧
    errIn (submitVote auth pid idx b1 b2 outcome vid t db).2 genericMessages = true ∧
    (getUserPolls (AuthState.user uid) (some msg) db).2 = some msg := by
  refine ⟨?_, ?_, ?_, ?_, ?_, rfl⟩
  · unfold createPoll
    cases hval : validatePollInput q raw with
    | some e =>
      have hm := validatePollInput_mem q raw
      rw [hval] at hm
      exact hm
    | none =>
      cases auth with
      | authError => rfl
      | anonymous => rfl
      | user u => cases b1 <;> rfl
  · unfold getPollById
    repeat' split
    all_goals rfl
  · unfold deletePoll
    repeat' split
    all_goals rfl
  · unfold updatePoll
    cases hval : validatePollInput q raw with
    | some e =>
      have hm := validatePollInput_mem q raw
      rw [hval] at hm
      exact hm
    | none =>
      cases auth with
      | authError => rfl
      | anonymous => rfl
      | user u => cases b1 <;> rfl
  · unfold submitVote
    repeat' split
    all_goals rfl

/-- C3 counterexample: principal `bob` has no vote on poll `p1`, and the
vote insert raises a uniqueness-constraint violation (a race loser); the
source maps it to the generic message `Failed to submit vote.`, not to the
DuplicateVote message. -/
theorem C3_counterexample :
    (submitVote (AuthState.user "bob") "p1" 0 false false InsertOutcome.uniqueViolation
        "v1" 9 dbAlice).2
      = some "Failed to submit vote." ∧
    some "Failed to submit vote." ≠ some "You have already voted on this poll." := by decide

/-- C3 amended: for a fixed (poll, principal) pair with no prior vote, a
first `submitVote` succeeds and appends exactly one Vote row; afterwards
exactly one Vote row for the pair exists, and a second sequential attempt
(any in-range option index, any insert outcome) fails with the
DuplicateVote message via the pre-check and changes nothing.  However, a
uniqueness-constraint violation raised by the vote insert itself is mapped
to the generic message `Failed to submit vote.`, not to DuplicateVote. -/
theorem C3_amended (uid pid vid vid2 : String) (idx idx2 : Int) (poll : Poll)
    (t t2 : Nat) (outcome2 : InsertOutcome) (db : DB)
    (hpid : pid.isEmpty = false)
    (hpoll : singleRow (db.polls.filter (fun p => p.id == pid)) = some poll)
    (hidx : 0 ≤ idx ∧ idx < (poll.options.length : Int))
    (hidx2 : 0 ≤ idx2 ∧ idx2 < (poll.options.length : Int))
    (hnone : db.votes.filter (fun v => v.pollId == pid && v.voterId == uid) = []) :
    submitVote (AuthState.user uid) pid idx false false InsertOutcome.ok vid t db
      = ({ db with votes := db.votes ++ [⟨vid, pid, uid, idx, t⟩] }, none) ∧
    ((db.votes ++ [(⟨vid, pid, uid, idx, t⟩ : Vote)]).filter
        (fun v => v.pollId == pid && v.voterId == uid)).length = 1 ∧
    submitVote (AuthState.user uid) pid idx2 false false outcome2 vid2 t2
        ({ db with votes := db.votes ++ [⟨vid, pid, uid, idx, t⟩] })
      = ({ db with votes := db.votes ++ [⟨vid, pid, uid, idx, t⟩] },
         some "You have already voted on this poll.") ∧
    submitVote (AuthState.user uid) pid idx false false InsertOutcome.uniqueViolation vid t db
      = (db, some "Failed to submit vote.") := by
  have hnp : ∀ v ∈ db.votes, (v.pollId == pid && v.voterId == uid) = false := by
    intro v hv
    have h := List.filter_eq_nil_iff.1 hnone v hv
    exact Bool.eq_false_iff.2 h
  have hany : db.votes.any (fun v => v.pollId == pid && v.voterId == uid) = false := by
    rw [List.any_eq_false]
    intro v hv
    rw [hnp v hv]
    exact Bool.false_ne_true
  refine ⟨?_, ?_, ?_, ?_⟩
  · simp [submitVote, AuthState.userOf, hpid, hpoll, hany,
      not_lt.2 hidx.1, not_le.2 hidx.2]
  · simp [List.filter_append, hnone]
  · simp [submitVote, AuthState.userOf, hpid, hpoll, List.any_append,
      not_lt.2 hidx2.1, not_le.2 hidx2.2]
  · simp [submitVote, AuthState.userOf, hpid, hpoll, hany,
      not_lt.2 hidx.1, not_le.2 hidx.2]

/-- C3 witness: `C3_amended` for principal `bob` on poll `p1` of the
alice-owned store: first vote succeeds, a second attempt is DuplicateVote,
and an insert-time uniqueness violation is the generic failure. -/
theorem C3_witness :
    submitVote (AuthState.user "bob") "p1" 0 false false InsertOutcome.ok "v1" 9 dbAlice
      = ({ dbAlice with votes := dbAlice.votes ++ [⟨"v1", "p1", "bob", 0, 9⟩] }, none) ∧
    ((dbAlice.votes ++ [(⟨"v1", "p1", "bob", 0, 9⟩ : Vote)]).filter
        (fun v => v.pollId == "p1" && v.voterId == "bob")).length = 1 ∧
    submitVote (AuthState.user "bob") "p1" 1 false false InsertOutcome.uniqueViolation "v2" 10
        ({ dbAlice with votes := dbAlice.votes ++ [⟨"v1", "p1", "bob", 0, 9⟩] })
      = ({ dbAlice with votes := dbAlice.votes ++ [⟨"v1", "p1", "bob", 0, 9⟩] },
         some "You have already voted on this poll.") ∧
    submitVote (AuthState.user "bob") "p1" 0 false false InsertOutcome.uniqueViolation
        "v1" 9 dbAlice
      = (dbAlice, some "Failed to submit vote.") :=
  C3_amended "bob" "p1" "v1" "v2" 0 1
    { id := "p1", ownerId := "alice", question := "Color?",
      options := ["Red", "Blue"], createdAt := 3 }
    9 10 InsertOutcome.uniqueViolation dbAlice
    (by decide) (by decide) (by decide) (by decide) (by decide)

set_option maxRecDepth 4000 in
/-- C6 counterexample: `q256` (255 spaces then `a`) has trimmed length 1,
inside [1, 255], yet validation fails with the question-length error: the
255-character maximum is checked on the untrimmed string. -/
theorem C6_counterexample :
    1 ≤ (jsTrim q256).length ∧ (jsTrim q256).length ≤ 255 ∧
    validatePollInput q256 ["Red", "Blue"]
      = some "Poll question must be between 1 and 255 characters." := by decide

/-- C6 amended: question validation fails exactly when the trimmed question
is empty or the untrimmed question exceeds 255 characters; equivalently,
`createPoll`/`updatePoll` validation returns the question-length error
exactly under that condition.  The lower bound is decided on the trimmed
string, the upper bound on the raw string, so surrounding whitespace counts
toward the 255-character maximum. -/
theorem C6_amended (q : String) (raw : List String) :
    (questionInvalid q = true ↔ ((jsTrim q).length = 0 ∨ 255 < q.length)) ∧
    (validatePollInput q raw = some "Poll question must be between 1 and 255 characters."
      ↔ ((jsTrim q).length = 0 ∨ 255 < q.length)) := by
  refine ⟨questionInvalid_iff q, ?_, ?_⟩
  · intro hv
    rw [← questionInvalid_iff]
    by_contra hq
    rw [Bool.not_eq_true] at hq
    unfold validatePollInput at hv
    split at hv
    · next hcond =>
        rw [hq] at hcond
        exact absurd hcond (by decide)
    · next hcond =>
        split at hv
        · exact absurd hv (by decide)
        · split at hv
          · exact absurd hv (by decide)
          · exact absurd hv (by decide)
  · intro h
    have hq : questionInvalid q = true := (questionInvalid_iff q).2 h
    unfold validatePollInput
    rw [hq]
    rfl

/-- C8: the outcome of `getPollById` when no poll with the id exists is
identical to the outcome when the poll exists but is owned by a different
principal: both are the single generic `(none, Failed to retrieve poll.)`
result, so the caller cannot distinguish nonexistence from lack of
ownership. -/
theorem C8_theorem (uid id : String) (dbA dbB : DB) (ff : Bool)
    (hA : ∀ p ∈ dbA.polls, p.id = id → p.ownerId ≠ uid)
    (hB : ∀ p ∈ dbB.polls, p.id ≠ id) :
    getPollById (AuthState.user uid) id ff dbA
        = getPollById (AuthState.user uid) id ff dbB ∧
    getPollById (AuthState.user uid) id ff dbA
        = (none, some "Failed to retrieve poll.") := by
  have hfA : dbA.polls.filter (fun p => p.id == id && p.ownerId == uid) = [] := by
    rw [List.filter_eq_nil_iff]
    intro p hp hcontra
    rw [Bool.and_eq_true, beq_iff_eq, beq_iff_eq] at hcontra
    exact hA p hp hcontra.1 hcontra.2
  have hfB : dbB.polls.filter (fun p => p.id == id && p.ownerId == uid) = [] := by
    rw [List.filter_eq_nil_iff]
    intro p hp hcontra
    rw [Bool.and_eq_true, beq_iff_eq, beq_iff_eq] at hcontra
    exact hB p hp hcontra.1
  have key : ∀ db : DB, db.polls.filter (fun p => p.id == id && p.ownerId == uid) = [] →
      getPollById (AuthState.user uid) id ff db = (none, some "Failed to retrieve poll.") := by
    intro db hdb
    show (match (if ff = true then none else
        singleRow (db.polls.filter (fun p => p.id == id && p.ownerId == uid))) with
      | some p => ((some p : Option Poll), (none : Option String))
      | none => (none, some "Failed to retrieve poll."))
      = (none, some "Failed to retrieve poll.")
    rw [hdb]
    cases ff <;> rfl
  rw [key dbA hfA, key dbB hfB]
  exact ⟨rfl, rfl⟩

/-- C8 witness: principal `bob` reading poll `p1` — owned by `alice` in one
store, absent from the other — gets the same generic result from both. -/
theorem C8_witness :
    getPollById (AuthState.user "bob") "p1" false dbAlice
        = getPollById (AuthState.user "bob") "p1" false db0 ∧
    getPollById (AuthState.user "bob") "p1" false dbAlice
        = (none, some "Failed to retrieve poll.") :=
  C8_theorem "bob" "p1" dbAlice db0 false (by decide) (by decide)

/-- C9: a successful owner `updatePoll` succeeds, leaves the votes table
unchanged, and relates old and new poll lists rowwise: every row keeps its
`id`, `ownerId` and `createdAt` (only `question`/`options` can change), and
every row not matching the (id, owner) predicate is completely unchanged. -/
theorem C9_theorem (uid pid q : String) (raw : List String) (db : DB)
    (hv : validatePollInput q raw = none) :
    (updatePoll (AuthState.user uid) pid q raw false db).2 = none ∧
    (updatePoll (AuthState.user uid) pid q raw false db).1.votes = db.votes ∧
    List.Forall₂ (fun p pNew =>
        pNew.id = p.id ∧ pNew.ownerId = p.ownerId ∧ pNew.createdAt = p.createdAt ∧
        (¬(p.id = pid ∧ p.ownerId = uid) → pNew = p))
      db.polls (updatePoll (AuthState.user uid) pid q raw false db).1.polls := by
  have hup : updatePoll (AuthState.user uid) pid q raw false db
      = ({ db with polls := db.polls.map (applyUpdate pid uid q (filterBlank raw)) }, none) := by
    unfold updatePoll
    rw [hv]
    rfl
  rw [hup]
  refine ⟨rfl, rfl, ?_⟩
  rw [List.forall₂_map_right_iff, List.forall₂_same]
  intro p hp
  unfold applyUpdate
  split
  · next hcond =>
      rw [Bool.and_eq_true, beq_iff_eq, beq_iff_eq] at hcond
      exact ⟨rfl, rfl, rfl, fun hn => absurd hcond hn⟩
  · exact ⟨rfl, rfl, rfl, fun _ => rfl⟩

/-- C9 witness: `alice` updates her poll `p1` in the two-poll store; the
update succeeds and the frame conditions hold rowwise. -/
theorem C9_witness :
    (updatePoll (AuthState.user "alice") "p1" "New?" ["A", "B"] false dbTwo).2 = none ∧
    (updatePoll (AuthState.user "alice") "p1" "New?" ["A", "B"] false dbTwo).1.votes
      = dbTwo.votes ∧
    List.Forall₂ (fun p pNew =>
        pNew.id = p.id ∧ pNew.ownerId = p.ownerId ∧ pNew.createdAt = p.createdAt ∧
        (¬(p.id = "p1" ∧ p.ownerId = "alice") → pNew = p))
      dbTwo.polls
      (updatePoll (AuthState.user "alice") "p1" "New?" ["A", "B"] false dbTwo).1.polls :=
  C9_theorem "alice" "p1" "New?" ["A", "B"] dbTwo (by decide)

/-- C10: `submitVote` never modifies the polls table, in any outcome; the
votes table either gains exactly one row together with a success result, or
is unchanged together with an error result. -/
theorem C10_theorem (auth : AuthState) (pid vid : String) (idx : Int)
    (b1 b2 : Bool) (outcome : InsertOutcome) (t : Nat) (db : DB) :
    (submitVote auth pid idx b1 b2 outcome vid t db).1.polls = db.polls ∧
    (((submitVote auth pid idx b1 b2 outcome vid t db).2 = none ∧
        ∃ v : Vote, (submitVote auth pid idx b1 b2 outcome vid t db).1.votes
          = db.votes ++ [v]) ∨
      ((submitVote auth pid idx b1 b2 outcome vid t db).2 ≠ none ∧
        (submitVote auth pid idx b1 b2 outcome vid t db).1.votes = db.votes)) := by
  unfold submitVote
  repeat' split
  all_goals try exact ⟨rfl, Or.inr ⟨by simp, rfl⟩⟩
  all_goals exact ⟨rfl, Or.inl ⟨rfl, _, rfl⟩⟩

end Polly
